import Mathlib

/-!
Shallow embedding of the laav pipeline-infrastructure sources
(`Common.hpp`, `NV12_PlanarFrame.hpp` and the example driving loop),
together with theorems settling the specification claims.

Machine integers are modelled as `Nat`/`Int` with explicit reduction
modulo `2 ^ 32` where C `unsigned int` wraparound matters.  C++
exceptions are modelled as `Except`/sum types; text written to the
error stream is modelled as an explicit output list.
-/

namespace Laav

/-! ### `Common.hpp`: globals -/

/-- Bit width of C `unsigned int` on the targeted platforms. -/
def uintBits : Nat := 32

/-- Modulus of C `unsigned int` arithmetic. -/
def uintMod : Nat := 2 ^ uintBits

/-- The value an `unsigned int` global receives from an `int` initializer:
the initializer is converted modulo `2 ^ 32` (C implicit conversion). -/
def uintOfInt (i : Int) : Nat := (i % (uintMod : Int)).toNat

/-- `unsigned int encodedVideoFrameBufferSize = 100;` -/
def encodedVideoFrameBufferSize : Nat := 100

/-- `unsigned int encodedAudioFrameBufferSize = 100;` -/
def encodedAudioFrameBufferSize : Nat := 100

/-- `unsigned int DEFAULT_BITRATE = -1;` -/
def DEFAULT_BITRATE : Nat := uintOfInt (-1)

/-- `unsigned int DEFAULT_GOPSIZE = -1;` -/
def DEFAULT_GOPSIZE : Nat := uintOfInt (-1)

/-! ### `Common.hpp`: status vocabulary and exception carriers -/

/-- `enum MediaStatus` from `Common.hpp`, in declaration order. -/
inductive MediaStatus
  | MEDIA_READY
  | MEDIA_NOT_READY
  | MEDIA_BUFFERING
  | MEDIA_NO_DATA
deriving DecidableEq, Repr

/-- `class MediaException`: the recoverable Status Signal, holding the
single `MediaStatus` stored by its constructor. -/
structure MediaException where
  mCause : MediaStatus
deriving DecidableEq, Repr

/-- `MediaException::cause() const`: returns the stored status, no side
effect (`const` member reading a field). -/
def MediaException.cause (e : MediaException) : MediaStatus := e.mCause

/-- `enum DeviceStatus` from `Common.hpp`, in declaration order. -/
inductive DeviceStatus
  | OPEN_DEV_ERROR
  | CONFIGURE_DEV_ERROR
  | CLOSE_DEV_ERROR
  | DEV_INITIALIZING
  | DEV_CONFIGURED
  | DEV_CAN_GRAB
  | DEV_DISCONNECTED
deriving DecidableEq, Repr

/-- `class OutOfBounds` from `Common.hpp` (no members). -/
structure OutOfBounds where
deriving DecidableEq, Repr

/-- A thrown `std::runtime_error`: carries its `what()` string
(`__PRETTY_FUNCTION__` at the throwing site). -/
structure RuntimeError where
  what : String
deriving DecidableEq, Repr

/-- The C++ exception objects the embedded sources can throw. -/
inductive CxxThrown
  | runtimeError (e : RuntimeError)
  | mediaException (e : MediaException)
  | outOfBoundsEx (e : OutOfBounds)
deriving DecidableEq, Repr

/-- `printAndThrowUnrecoverableError_(error, func)`: writes `error` to
`std::cerr`, then throws `func` (a `std::runtime_error`).  Result: the
lines written to the error stream, in order, and the thrown object. -/
def printAndThrowUnrecoverableError (error : String) (func : RuntimeError) :
    List String × CxxThrown :=
  ([error], .runtimeError func)

/-! ### `Common.hpp`: `split` -/

/-- Loop body of `split(text, sep)`: `acc` is the current token being
scanned, held reversed; on meeting `sep` the token built so far is
emitted (`text.substr(start, end - start)`) and scanning restarts after
the separator (`start = end + 1`); when no further separator is found the
trailing remainder (`text.substr(start)`) is emitted as the last token. -/
def splitAux (sep : Char) (acc : List Char) : List Char → List (List Char)
  | [] => [acc.reverse]
  | c :: rest =>
    if c = sep then acc.reverse :: splitAux sep [] rest
    else splitAux sep (c :: acc) rest

/-- `std::vector<std::string> split(const std::string& text, char sep)`
from `Common.hpp`, over texts modelled as `List Char`. -/
def split (text : List Char) (sep : Char) : List (List Char) :=
  splitAux sep [] text

/-! ### `NV12_PlanarFrame.hpp` -/

/-- `Pixel<unsigned char, unsigned char, unsigned char>`: three byte
components. -/
structure Pixel where
  comp1 : Nat
  comp2 : Nat
  comp3 : Nat
deriving DecidableEq, Repr

/-- `VideoFrame<NV_12_PLANAR, width_, height_>::pixelAt(x, y)`: its body
is `printAndThrowUnrecoverableError("NOT IMPLEMENTED YET! TODO!")`
regardless of `x` and `y`, so the call prints the diagnostic and throws
the `std::runtime_error`; the trailing `return mCurrPixel` is never
reached.  Result: error-stream output and the outcome of the call. -/
def NV12.pixelAt (width_ height_ : Nat) (x y : Nat) :
    List String × Except CxxThrown Pixel :=
  let r := printAndThrowUnrecoverableError "NOT IMPLEMENTED YET! TODO!"
    ⟨"VideoFrame<NV_12_PLANAR, width_, height_>::pixelAt"⟩
  (r.1, .error r.2)

/-- `VideoFrame<NV_12_PLANAR, width_, height_>::setPixelAt(pixel, x, y)`:
likewise unconditionally prints and throws. -/
def NV12.setPixelAt (width_ height_ : Nat) (pixel : Pixel) (x y : Nat) :
    List String × Except CxxThrown Unit :=
  let r := printAndThrowUnrecoverableError "NOT IMPLEMENTED YET! TODO!"
    ⟨"VideoFrame<NV_12_PLANAR, width_, height_>::setPixelAt"⟩
  (r.1, .error r.2)

/-! ### Typed pipe operator (spec-modelled)

The `VideoFrameHolder`, the pipe operator `operator>>` and the device
adapters are code of this repository that is not under `src/`; they are
modelled from the spec below. -/

/-- The compile-time format discriminants appearing in the sources. -/
inductive VideoFormat
  | YUYV422_PACKED
  | YUV420_PLANAR
  | H264
  | NV_12_PLANAR
deriving DecidableEq, Repr

/-- Modelled from the spec: the `(format, width, height)` triple that
tags a frame type at compile time (missing: the `VideoFrame` template
parameter lists of the stages not under `src/`). -/
structure StreamTriple where
  format : VideoFormat
  width : Nat
  height : Nat
deriving DecidableEq, Repr

/-- Modelled from the spec: the build-time compatibility check of the
typed pipe operator (missing: `operator>>` overload resolution).
`connect(producer, consumer)` is well-formed exactly when the two
`(format, width, height)` triples are identical. -/
def connectAccepted (producer consumer : StreamTriple) : Bool :=
  decide (producer = consumer)

/-- Modelled from the spec: the data movement of the pipe operator on an
accepted connection — the producer frame is forwarded to the consumer
unchanged, with no implicit format or geometry conversion; a rejected
connection moves nothing. -/
def pipeForward {α : Type} (producer consumer : StreamTriple) (frame : α) :
    Option α :=
  if producer = consumer then some frame else none

/-! ### Frame Holder (spec-modelled) -/

/-- Modelled from the spec: a Frame Holder owns one current frame slot
plus a status code (missing: the `VideoFrameHolder` template). -/
structure FrameHolder (F : Type) where
  status : MediaStatus
  slot : Option F
deriving DecidableEq, Repr

/-- Modelled from the spec: a freshly constructed holder on which `push`
was never called: status `NO_DATA`, no frame. -/
def FrameHolder.initial {F : Type} : FrameHolder F :=
  ⟨.MEDIA_NO_DATA, none⟩

/-- Modelled from the spec: `push(frame)` stores the frame and sets
status `READY`; always succeeds. -/
def FrameHolder.push {F : Type} (h : FrameHolder F) (f : F) : FrameHolder F :=
  ⟨.MEDIA_READY, some f⟩

/-- Modelled from the spec: `get()` returns the current frame if status
is `READY`, otherwise raises a `MediaException` carrying the holder's
current status code.  A total function: it never blocks. -/
def FrameHolder.get {F : Type} (h : FrameHolder F) : Except MediaException F :=
  match h.status, h.slot with
  | .MEDIA_READY, some f => .ok f
  | s, _ => .error ⟨s⟩

/-- A holder is well-formed when `READY` status implies a frame is
present; `initial` and every `push` result satisfy this. -/
def FrameHolder.Wf {F : Type} (h : FrameHolder F) : Prop :=
  h.status = .MEDIA_READY → h.slot.isSome

/-! ### Capture device lifecycle (spec-modelled) -/

/-- Modelled from the spec: a capture device adapter carries its
lifecycle status and the producer-side Frame Holder (missing: the
`V4L2Grabber` adapter). -/
structure CaptureDevice (F : Type) where
  status : DeviceStatus
  holder : FrameHolder F

/-- Modelled from the spec: loss of the underlying source — the device
becomes `DISCONNECTED` and subsequent `get()` on its holder reports
`NO_DATA` (the holder is emptied). -/
def CaptureDevice.disconnect {F : Type} (d : CaptureDevice F) :
    CaptureDevice F :=
  ⟨.DEV_DISCONNECTED, .initial⟩

/-- Modelled from the spec: one driving-loop step of the device
lifecycle.  A device that can produce may grab a frame into its holder,
and its disconnection is enabled at any such point; a device never
leaves the `DISCONNECTED` state; `idle` is a reactor iteration on which
the device's readiness source did not fire. -/
inductive DevStep {F : Type} : CaptureDevice F → CaptureDevice F → Prop
  | configure {d : CaptureDevice F} :
      d.status = .DEV_INITIALIZING → DevStep d ⟨.DEV_CONFIGURED, d.holder⟩
  | start {d : CaptureDevice F} :
      d.status = .DEV_CONFIGURED → DevStep d ⟨.DEV_CAN_GRAB, d.holder⟩
  | grab {d : CaptureDevice F} (f : F) :
      d.status = .DEV_CAN_GRAB → DevStep d ⟨.DEV_CAN_GRAB, d.holder.push f⟩
  | disconnect {d : CaptureDevice F} :
      d.status = .DEV_CAN_GRAB → DevStep d d.disconnect
  | idle {d : CaptureDevice F} : DevStep d d

/-- Zero or more driving-loop steps. -/
def DevReaches {F : Type} : CaptureDevice F → CaptureDevice F → Prop :=
  Relation.ReflTransGen DevStep

/-! ### Ring-buffered Frame Holder (spec-modelled) -/

/-- Modelled from the spec: a buffered producer's holder is a bounded
ring of up to `capacity` slots plus an overflow counter (missing: the
encoded-frame ring buffer of the encoder stages); oldest frame first. -/
structure RingFrameHolder (F : Type) where
  capacity : Nat
  ring : List F
  overflowCount : Nat
deriving DecidableEq, Repr

/-- Modelled from the spec: an empty ring holder of the given capacity. -/
def RingFrameHolder.empty (F : Type) (capacity : Nat) : RingFrameHolder F :=
  ⟨capacity, [], 0⟩

/-- The capacity a ring holder is configured with by default:
`encodedVideoFrameBufferSize` from `Common.hpp`. -/
def defaultRingCapacity : Nat := encodedVideoFrameBufferSize

/-- Modelled from the spec: a buffered `push` advances the bounded ring;
when the ring is full the oldest unread frame is dropped and counted as
one overflow (observable, not fatal). -/
def RingFrameHolder.push {F : Type} (h : RingFrameHolder F) (f : F) :
    RingFrameHolder F :=
  if h.ring.length < h.capacity then
    ⟨h.capacity, h.ring ++ [f], h.overflowCount⟩
  else
    ⟨h.capacity, h.ring.tail ++ [f], h.overflowCount + 1⟩

/-- Push a sequence of frames, in order, with no intervening reads. -/
def RingFrameHolder.pushAll {F : Type} (h : RingFrameHolder F) (fs : List F) :
    RingFrameHolder F :=
  fs.foldl RingFrameHolder.push h

/-! ## Theorems -/

/-- C7: the status vocabulary is a shared enumeration whose
data-availability values are exactly the four codes
{NO_DATA, BUFFERING, READY, NOT_READY} (spelled `MEDIA_*` in the source)
and whose device-lifecycle values are exactly the seven codes
{OPEN_ERROR, CONFIGURE_ERROR, CLOSE_ERROR, INITIALIZING, CONFIGURED,
CAN_PRODUCE, DISCONNECTED} (spelled `*_DEV_ERROR`, `DEV_*`,
`DEV_CAN_GRAB`): every observable status is one of these values, and the
values are pairwise distinct. -/
theorem claim7_status_vocabulary :
    (∀ s : MediaStatus,
      s = .MEDIA_NO_DATA ∨ s = .MEDIA_BUFFERING ∨ s = .MEDIA_READY ∨
        s = .MEDIA_NOT_READY) ∧
    [MediaStatus.MEDIA_NO_DATA, .MEDIA_BUFFERING, .MEDIA_READY,
      .MEDIA_NOT_READY].Nodup ∧
    (∀ d : DeviceStatus,
      d = .OPEN_DEV_ERROR ∨ d = .CONFIGURE_DEV_ERROR ∨ d = .CLOSE_DEV_ERROR ∨
        d = .DEV_INITIALIZING ∨ d = .DEV_CONFIGURED ∨ d = .DEV_CAN_GRAB ∨
        d = .DEV_DISCONNECTED) ∧
    [DeviceStatus.OPEN_DEV_ERROR, .CONFIGURE_DEV_ERROR, .CLOSE_DEV_ERROR,
      .DEV_INITIALIZING, .DEV_CONFIGURED, .DEV_CAN_GRAB,
      .DEV_DISCONNECTED].Nodup := by
  refine ⟨fun s => ?_, by decide, fun d => ?_, by decide⟩
  · cases s <;> simp
  · cases d <;> simp

/-- C8: a Status Signal holds exactly one status code: a
`MediaException` constructed with cause `s` reports `s`, unchanged, from
its `cause()` observer (`cause` is a pure field read, so it has no side
effect on the signal). -/
theorem claim8_cause_roundtrip :
    ∀ s : MediaStatus, (MediaException.mk s).cause = s :=
  fun _ => rfl

/-- C10: `DEFAULT_BITRATE` and `DEFAULT_GOPSIZE`, `unsigned int` globals
initialized with `-1`, equal `2 ^ 32 - 1 = 4294967295` (the wrapped
maximum unsigned value), not a negative sentinel. -/
theorem claim10_default_bitrate_wraps :
    DEFAULT_BITRATE = 4294967295 ∧ DEFAULT_GOPSIZE = 4294967295 ∧
    DEFAULT_BITRATE = 2 ^ 32 - 1 ∧ (0 : Nat) ≤ DEFAULT_BITRATE := by
  refine ⟨?_, ?_, ?_, Nat.zero_le _⟩ <;> decide

/-- C2: for `NV_12_PLANAR`, every `pixelAt`/`setPixelAt` call, at any
coordinates, first writes the diagnostic to the error stream and then
raises the always-fatal `std::runtime_error`; the outcome is never a
`MediaException` (the recoverable Status Signal), never an `OutOfBounds`,
and `pixelAt` never returns normally. -/
theorem claim2_not_implemented_fatal (w h x y : Nat) (p : Pixel) :
    (NV12.pixelAt w h x y).1 = ["NOT IMPLEMENTED YET! TODO!"] ∧
    (NV12.pixelAt w h x y).2 = Except.error (CxxThrown.runtimeError
      ⟨"VideoFrame<NV_12_PLANAR, width_, height_>::pixelAt"⟩) ∧
    (∀ m : MediaException,
      (NV12.pixelAt w h x y).2 ≠ Except.error (CxxThrown.mediaException m)) ∧
    (∀ q : Pixel, (NV12.pixelAt w h x y).2 ≠ Except.ok q) ∧
    (NV12.setPixelAt w h p x y).1 = ["NOT IMPLEMENTED YET! TODO!"] ∧
    (NV12.setPixelAt w h p x y).2 = Except.error (CxxThrown.runtimeError
      ⟨"VideoFrame<NV_12_PLANAR, width_, height_>::setPixelAt"⟩) ∧
    (∀ m : MediaException,
      (NV12.setPixelAt w h p x y).2 ≠
        Except.error (CxxThrown.mediaException m)) := by
  refine ⟨rfl, rfl, fun m hm => ?_, fun q hq => ?_, rfl, rfl, fun m hm => ?_⟩ <;>
    simp [NV12.pixelAt, NV12.setPixelAt, printAndThrowUnrecoverableError] at *

/-- C2 witness: the theorem applied at frame geometry 640 by 480 and
coordinates (0, 0). -/
theorem claim2_witness :
    (NV12.pixelAt 640 480 0 0).1 = ["NOT IMPLEMENTED YET! TODO!"] ∧
    (NV12.pixelAt 640 480 0 0).2 ≠
      Except.error (CxxThrown.mediaException ⟨.MEDIA_NO_DATA⟩) :=
  ⟨(claim2_not_implemented_fatal 640 480 0 0 ⟨0, 0, 0⟩).1,
   (claim2_not_implemented_fatal 640 480 0 0 ⟨0, 0, 0⟩).2.2.1
     ⟨.MEDIA_NO_DATA⟩⟩

/-- C1 counterexample: for the `NV_12_PLANAR` specialization at geometry
640 by 480, `pixelAt (width-1, height-1)` does not succeed, and neither
`pixelAt` at `(width, 0)` nor `setPixelAt` at `(0, height)` raises
`OutOfBounds` — both raise the unrecoverable `std::runtime_error`
instead, refuting the claim. -/
theorem claim1_counterexample :
    (NV12.pixelAt 640 480 639 479).2.isOk = false ∧
    (NV12.pixelAt 640 480 640 0).2 ≠
      Except.error (CxxThrown.outOfBoundsEx ⟨⟩) ∧
    (NV12.setPixelAt 640 480 ⟨0, 0, 0⟩ 0 480).2 ≠
      Except.error (CxxThrown.outOfBoundsEx ⟨⟩) := by
  refine ⟨rfl, fun hm => ?_, fun hm => ?_⟩ <;>
    simp [NV12.pixelAt, NV12.setPixelAt, printAndThrowUnrecoverableError] at hm

/-- C1 amended: for the `NV_12_PLANAR` specialization, `pixelAt` and
`setPixelAt` at `(width, 0)`, at `(0, height)` and at
`(width-1, height-1)` all print the not-implemented diagnostic and raise
the fatal unrecoverable `std::runtime_error`; no coordinate raises
`OutOfBounds` and none succeeds. -/
theorem claim1_amended (w h : Nat) (p : Pixel) :
    ((NV12.pixelAt w h w 0).1 = ["NOT IMPLEMENTED YET! TODO!"] ∧
      (NV12.pixelAt w h w 0).2 = Except.error (CxxThrown.runtimeError
        ⟨"VideoFrame<NV_12_PLANAR, width_, height_>::pixelAt"⟩)) ∧
    ((NV12.pixelAt w h 0 h).2 = Except.error (CxxThrown.runtimeError
        ⟨"VideoFrame<NV_12_PLANAR, width_, height_>::pixelAt"⟩)) ∧
    ((NV12.pixelAt w h (w - 1) (h - 1)).2 =
      Except.error (CxxThrown.runtimeError
        ⟨"VideoFrame<NV_12_PLANAR, width_, height_>::pixelAt"⟩)) ∧
    ((NV12.setPixelAt w h p w 0).2 = Except.error (CxxThrown.runtimeError
        ⟨"VideoFrame<NV_12_PLANAR, width_, height_>::setPixelAt"⟩)) ∧
    ((NV12.setPixelAt w h p (w - 1) (h - 1)).2 =
      Except.error (CxxThrown.runtimeError
        ⟨"VideoFrame<NV_12_PLANAR, width_, height_>::setPixelAt"⟩)) :=
  ⟨⟨rfl, rfl⟩, rfl, rfl, rfl, rfl⟩

/-- C3: `connect` is accepted exactly when the `(format, width, height)`
triples are identical; a pair differing only in orientation (swapped
width and height) is rejected; on an accepted connection the frame is
forwarded unchanged (no implicit conversion), and a rejected connection
forwards nothing. -/
theorem claim3_connect_static_check (p c : StreamTriple) :
    (connectAccepted p c = true ↔ p = c) ∧
    (p.width ≠ p.height →
      connectAccepted p ⟨p.format, p.height, p.width⟩ = false) ∧
    (∀ f : Nat, pipeForward p p f = some f) ∧
    (p ≠ c → ∀ f : Nat, pipeForward p c f = none) := by
  refine ⟨by simp [connectAccepted], fun hwh => ?_,
    fun f => by simp [pipeForward], fun hne f => by simp [pipeForward, hne]⟩
  simp only [connectAccepted, decide_eq_false_iff_not]
  intro heq
  exact hwh (congrArg StreamTriple.width heq)

/-- C3 witness: matching 640 by 480 YUYV422_PACKED endpoints are
accepted and forward the frame unchanged; the orientation-swapped pair
is rejected. -/
theorem claim3_witness :
    connectAccepted ⟨.YUYV422_PACKED, 640, 480⟩ ⟨.YUYV422_PACKED, 640, 480⟩
      = true ∧
    connectAccepted ⟨.YUYV422_PACKED, 640, 480⟩ ⟨.YUYV422_PACKED, 480, 640⟩
      = false ∧
    pipeForward ⟨.YUYV422_PACKED, 640, 480⟩ ⟨.YUYV422_PACKED, 640, 480⟩
      (7 : Nat) = some 7 :=
  ⟨(claim3_connect_static_check ⟨.YUYV422_PACKED, 640, 480⟩
      ⟨.YUYV422_PACKED, 640, 480⟩).1.mpr rfl,
   (claim3_connect_static_check ⟨.YUYV422_PACKED, 640, 480⟩
      ⟨.YUYV422_PACKED, 640, 480⟩).2.1 (by decide),
   (claim3_connect_static_check ⟨.YUYV422_PACKED, 640, 480⟩
      ⟨.YUYV422_PACKED, 640, 480⟩).2.2.1 7⟩

/-- C4: for every well-formed Frame Holder state, `get()` returns a
frame exactly when the status is `READY` (and it is the current frame in
the slot); otherwise it raises a Status Signal carrying exactly the
holder's current status code; a holder on which `push` was never called
reports `NO_DATA` for every `get()` and never returns a frame.  `get` is
a total function, so no call blocks. -/
theorem claim4_get_ready_or_signal {F : Type} (h : FrameHolder F)
    (hwf : h.Wf) :
    ((∃ f, h.get = Except.ok f) ↔ h.status = .MEDIA_READY) ∧
    (h.status = .MEDIA_READY → ∃ f, h.slot = some f ∧ h.get = Except.ok f) ∧
    (h.status ≠ .MEDIA_READY → h.get = Except.error ⟨h.status⟩) ∧
    ((FrameHolder.initial : FrameHolder F).get =
      Except.error ⟨.MEDIA_NO_DATA⟩) ∧
    (∀ f, (FrameHolder.initial : FrameHolder F).get ≠ Except.ok f) := by
  obtain ⟨st, sl⟩ := h
  simp only [FrameHolder.Wf] at hwf
  cases st <;> cases sl <;>
    simp_all [FrameHolder.get, FrameHolder.initial]

/-- C4 witness: a pushed holder's `get` returns the pushed frame; the
never-pushed holder's `get` reports `NO_DATA`. -/
theorem claim4_witness :
    (∃ f, ((FrameHolder.initial : FrameHolder Nat).push 5).get =
      Except.ok f) ∧
    ((FrameHolder.initial : FrameHolder Nat).get =
      Except.error ⟨.MEDIA_NO_DATA⟩) :=
  ⟨(claim4_get_ready_or_signal ((FrameHolder.initial : FrameHolder Nat).push 5)
      (fun _ => rfl)).1.mpr rfl,
   (claim4_get_ready_or_signal ((FrameHolder.initial : FrameHolder Nat).push 5)
      (fun _ => rfl)).2.2.2.1⟩

/-- A single lifecycle step out of a `DISCONNECTED` device leaves it
unchanged: every non-idle transition requires a different status. -/
theorem devStep_of_disconnected {F : Type} {a b : CaptureDevice F}
    (hstep : DevStep a b) (ha : a.status = .DEV_DISCONNECTED) : b = a := by
  cases hstep with
  | configure hs => rw [ha] at hs; cases hs
  | start hs => rw [ha] at hs; cases hs
  | grab f hs => rw [ha] at hs; cases hs
  | disconnect hs => rw [ha] at hs; cases hs
  | idle => rfl

/-- Any run out of a `DISCONNECTED` device stays in the same state. -/
theorem devReaches_of_disconnected {F : Type} {a b : CaptureDevice F}
    (hr : DevReaches a b) (ha : a.status = .DEV_DISCONNECTED) : b = a := by
  induction hr with
  | refl => rfl
  | tail hstar hstep ih => exact devStep_of_disconnected (ih ▸ hstep) ha

/-- C5: from any device state that can produce (`CAN_PRODUCE`, spelled
`DEV_CAN_GRAB` in the source), the transition to `DISCONNECTED` is an
enabled lifecycle step; after it, along every subsequent run, `get()` on
the device's Frame Holder reports `NO_DATA` (a recoverable Status
Signal, by type never the fatal `std::runtime_error`), never returns a
frame, and a further driving-loop step is always enabled, so the loop
continues without termination. -/
theorem claim5_disconnect_reachable {F : Type} (d : CaptureDevice F)
    (hd : d.status = .DEV_CAN_GRAB) :
    DevStep d d.disconnect ∧
    d.disconnect.status = .DEV_DISCONNECTED ∧
    (∀ d'', DevReaches d.disconnect d'' →
      d''.holder.get = Except.error ⟨.MEDIA_NO_DATA⟩ ∧
      (∀ f, d''.holder.get ≠ Except.ok f) ∧
      DevStep d'' d'') := by
  refine ⟨DevStep.disconnect hd, rfl, fun d'' hr => ?_⟩
  have hEq : d'' = d.disconnect := devReaches_of_disconnected hr rfl
  subst hEq
  exact ⟨rfl, fun f hf => by simp [CaptureDevice.disconnect, FrameHolder.get,
    FrameHolder.initial] at hf, DevStep.idle⟩

/-- C5 witness: the theorem applied to a concrete producing device. -/
theorem claim5_witness :
    DevStep (⟨.DEV_CAN_GRAB, FrameHolder.initial⟩ : CaptureDevice Nat)
      (⟨.DEV_CAN_GRAB, FrameHolder.initial⟩ : CaptureDevice Nat).disconnect ∧
    (⟨.DEV_CAN_GRAB, FrameHolder.initial⟩ :
      CaptureDevice Nat).disconnect.holder.get =
        Except.error ⟨.MEDIA_NO_DATA⟩ :=
  ⟨(claim5_disconnect_reachable
      (⟨.DEV_CAN_GRAB, FrameHolder.initial⟩ : CaptureDevice Nat) rfl).1,
   ((claim5_disconnect_reachable
      (⟨.DEV_CAN_GRAB, FrameHolder.initial⟩ : CaptureDevice Nat) rfl).2.2
      _ Relation.ReflTransGen.refl).1⟩

/-- C6: the ring-buffered holder's capacity is configurable with default
`encodedVideoFrameBufferSize = 100`; configured with capacity 100 and
given 150 pushes with no intervening reads, it reports exactly 50
overflow events and retains exactly the most recent 100 frames in push
order. -/
theorem claim6_ring_overflow :
    defaultRingCapacity = 100 ∧
    (RingFrameHolder.pushAll (RingFrameHolder.empty Nat 100)
      (List.range 150)).overflowCount = 50 ∧
    (RingFrameHolder.pushAll (RingFrameHolder.empty Nat 100)
      (List.range 150)).ring = (List.range 150).drop 50 := by
  refine ⟨rfl, ?_, ?_⟩ <;> · set_option maxRecDepth 40000 in decide

/-- Intercalating a one-element list of tokens is that token. -/
theorem intercalate_single (s x : List Char) : s.intercalate [x] = x := by
  simp [List.intercalate, List.intersperse]

/-- Intercalating a token in front of at least one further token
prepends the token and the separator. -/
theorem intercalate_cons_of_ne_nil (s x : List Char) {L : List (List Char)}
    (hL : L ≠ []) : s.intercalate (x :: L) = x ++ s ++ s.intercalate L := by
  cases L with
  | nil => exact absurd rfl hL
  | cons y ys => simp [List.intercalate, List.intersperse]

/-- The `split` loop never produces an empty token list: the trailing
remainder is always pushed. -/
theorem splitAux_ne_nil (sep : Char) (text : List Char) :
    ∀ acc, splitAux sep acc text ≠ [] := by
  induction text with
  | nil => intro acc; simp [splitAux]
  | cons c rest ih =>
    intro acc
    by_cases hc : c = sep
    · simp [splitAux, hc]
    · simpa [splitAux, hc] using ih (c :: acc)

/-- The `split` loop emits one token per separator occurrence plus the
trailing remainder. -/
theorem length_splitAux (sep : Char) (text : List Char) :
    ∀ acc, (splitAux sep acc text).length = text.count sep + 1 := by
  induction text with
  | nil => intro acc; simp [splitAux]
  | cons c rest ih =>
    intro acc
    by_cases hc : c = sep
    · simp [splitAux, hc, ih, List.count_cons]
    · simp [splitAux, hc, ih, List.count_cons]

/-- No token emitted by the `split` loop contains the separator, as long
as the token under construction does not. -/
theorem not_mem_splitAux (sep : Char) (text : List Char) :
    ∀ acc, sep ∉ acc → ∀ t ∈ splitAux sep acc text, sep ∉ t := by
  induction text with
  | nil =>
    intro acc hacc t ht
    simp only [splitAux, List.mem_singleton] at ht
    subst ht
    simpa using hacc
  | cons c rest ih =>
    intro acc hacc t ht
    simp only [splitAux] at ht
    by_cases hc : c = sep
    · rw [if_pos hc] at ht
      rcases List.mem_cons.mp ht with rfl | htl
      · simpa using hacc
      · exact ih [] (by simp) t htl
    · rw [if_neg hc] at ht
      refine ih (c :: acc) ?_ t ht
      simp only [List.mem_cons, not_or]
      exact ⟨fun hsc => hc hsc.symm, hacc⟩

/-- Joining the tokens emitted by the `split` loop with the separator
reconstructs the pending token followed by the remaining text. -/
theorem intercalate_splitAux (sep : Char) (text : List Char) :
    ∀ acc, [sep].intercalate (splitAux sep acc text) = acc.reverse ++ text := by
  induction text with
  | nil => intro acc; simp [splitAux, intercalate_single]
  | cons c rest ih =>
    intro acc
    by_cases hc : c = sep
    · rw [splitAux, if_pos hc,
        intercalate_cons_of_ne_nil [sep] acc.reverse (splitAux_ne_nil sep rest []),
        ih []]
      simp [hc]
    · rw [splitAux, if_neg hc, ih (c :: acc)]
      simp

/-- C9: for every text and separator character, `split(text, sep)` is a
non-empty list of exactly `count(sep, text) + 1` tokens, none containing
`sep`, and joining the tokens with `sep` as delimiter reconstructs
`text` exactly; in particular, splitting a text not containing `sep`
yields the one-element list holding the whole text. -/
theorem claim9_split_inverts_join (text : List Char) (sep : Char) :
    split text sep ≠ [] ∧
    (split text sep).length = text.count sep + 1 ∧
    (∀ t ∈ split text sep, sep ∉ t) ∧
    [sep].intercalate (split text sep) = text ∧
    (sep ∉ text → split text sep = [text]) := by
  refine ⟨splitAux_ne_nil sep text [], length_splitAux sep text [],
    not_mem_splitAux sep text [] (by simp), intercalate_splitAux sep text [],
    fun hsep => ?_⟩
  have hlen : (split text sep).length = 1 := by
    have hl := length_splitAux sep text []
    rw [show splitAux sep [] text = split text sep from rfl] at hl
    rw [hl, List.count_eq_zero_of_not_mem hsep]
  obtain ⟨t, ht⟩ : ∃ t, split text sep = [t] := List.length_eq_one.mp hlen
  have hicalc : [sep].intercalate (split text sep) = text :=
    intercalate_splitAux sep text []
  rw [ht, intercalate_single] at hicalc
  rw [ht, hicalc]

/-- C9 witness: splitting a three-character text on its middle separator
gives two tokens; a text without the separator is returned whole. -/
theorem claim9_witness :
    split ['a', ',', 'b'] ',' ≠ [] ∧
    (split ['a', ',', 'b'] ',').length = 2 ∧
    split ['a', 'b'] ',' = [['a', 'b']] :=
  ⟨(claim9_split_inverts_join ['a', ',', 'b'] ',').1,
   ((claim9_split_inverts_join ['a', ',', 'b'] ',').2.1).trans (by decide),
   (claim9_split_inverts_join ['a', 'b'] ',').2.2.2.2 (by decide)⟩

end Laav
